import Mathlib

/-!
Verification of the plotly-penguins dashboard.

This file gives a shallow embedding, in Lean 4, of the parts of the
repository relevant to its specification: the SQL-query builders of
`plotly_dash/data_viz.py` (classes `Histogram`, `LinearRegression`,
`MultipleRegression`), the dataframe cleaning and error handling of
`_create_dataframe`, the fixed radio-button option sets wired into the
three Dash apps (`histograms.py`, `linear_regression.py`,
`multiple_regression.py`), and the Flask route registration of
`flask/app/app.py`.  Python strings become Lean `String`s, dataframes
become lists, SQLite rows become a `Row` structure, rational arithmetic
(`ℚ`) stands in for the float arithmetic of numpy/statsmodels where
exactness matters, and the statsmodels OLS fit is modelled by its
defining normal equations solved with Cramer's rule.
-/

set_option maxHeartbeats 2000000
set_option maxRecDepth 4000

/-! Section: Character-list helpers (Python / SQL string primitives) -/

/-- Test `charsStartsWith p s`: true when the character list `s` begins with `p`. -/
def charsStartsWith : List Char → List Char → Bool
  | [], _ => true
  | _ :: _, [] => false
  | p :: ps, c :: cs => p == c && charsStartsWith ps cs

/-- Test `hasSubstr pat s`: true when `pat` occurs contiguously inside `s`. -/
def hasSubstr (pat : List Char) : List Char → Bool
  | [] => charsStartsWith pat []
  | c :: s2 => charsStartsWith pat (c :: s2) || hasSubstr pat s2

/-- Test `likeSuffixAny f s`: true when `f` holds of some suffix of `s`
(including `s` itself and the empty suffix). -/
def likeSuffixAny (f : List Char → Bool) : List Char → Bool
  | [] => f []
  | c :: s2 => f (c :: s2) || likeSuffixAny f s2

/-- SQL `LIKE` pattern matching over character lists: `%` matches any
(possibly empty) substring, `_` matches any single character, and any
other pattern character matches itself. -/
def likeMatches : List Char → List Char → Bool
  | [], s => s.isEmpty
  | p :: ps, s =>
    if p = '%' then likeSuffixAny (likeMatches ps) s
    else
      match s with
      | [] => false
      | c :: s2 => (if p = '_' then true else p == c) && likeMatches ps s2

/-- Collapse every maximal run of whitespace characters into a single
space (used only to compare SQL texts up to layout). -/
def collapseWS : List Char → List Char
  | [] => []
  | c :: rest =>
    if c.isWhitespace then
      match rest with
      | [] => [' ']
      | d :: _ =>
        if d.isWhitespace then collapseWS rest else ' ' :: collapseWS rest
    else c :: collapseWS rest

/-- Whitespace-normalised form of a string. -/
def normSpaces (s : String) : String := (collapseWS s.toList).asString

/-- Python slice `s[n:]`. -/
def pyDrop (n : Nat) (s : String) : String := (s.toList.drop n).asString

/-- Python slice `s[1:-2]`. -/
def pySliceOneNegTwo (s : String) : String :=
  ((s.toList.drop 1).dropLast.dropLast).asString

/-- The content of a SQL string literal `'...'` (strip the two quotes),
i.e. Python `s[1:-1]`. -/
def sqlStrLit (s : String) : String := ((s.toList.drop 1).dropLast).asString

/-- SQL `LIKE` matching lifted to strings: `likeMatch pat s`. -/
def likeMatch (pat s : String) : Bool := likeMatches pat.toList s.toList

/-- Lookup in an association list with a default (model of a Python
dict subscript whose key is known to be present). -/
def lookupD {α : Type} (l : List (String × α)) (k : String) (d : α) : α :=
  match l.find? (fun p => p.1 == k) with
  | some p => p.2
  | none => d

/-- The keys of an association list. -/
def keysOf {α : Type} (l : List (String × α)) : List String := l.map Prod.fst

/-! Section: The fixed UI option sets (radio buttons of the three Dash apps) -/

/-- The `species_radio` values of `histograms.py` (lines 19-27). -/
def histSpeciesOptions : List String :=
  ["", " AND species LIKE 'Adelie%'", " AND species LIKE 'Chinstrap%'",
   " AND species LIKE 'Gentoo%'"]

/-- The `sex_radio` values of `histograms.py` (lines 28-35). -/
def histSexOptions : List String :=
  ["", " AND sex LIKE 'MALE'", " AND sex LIKE 'FEMALE'"]

/-- The six measurement-column values used by every variable radio of
all three Dash apps. -/
def variableOptions : List String :=
  ["culmen_length_mm", "culmen_depth_mm", "flipper_length_mm",
   "body_mass_g", "delta_15_N_ppt", "delta_13_C_ppt"]

/-- The `species_radio` values of `linear_regression.py` and
`multiple_regression.py`. -/
def regSpeciesOptions : List String :=
  ["'Adelie%'", "'Chinstrap%'", "'Gentoo%'"]

/-! Section: GraphUtils (`data_viz.py` lines 27-43) -/

namespace GraphUtils

/-- Dict `GraphUtils.labels`. -/
def labels : List (String × String) :=
  [("culmen_length_mm", "Culmen Length (mm)"),
   ("culmen_depth_mm", "Culmen Depth (mm)"),
   ("flipper_length_mm", "Flipper Length (mm)"),
   ("body_mass_g", "Body Mass (g)"),
   ("delta_15_N_ppt", "δ15N (‰)"),
   ("delta_13_C_ppt", "δ13C (‰)")]

/-- Dict `GraphUtils.colours`. -/
def colours : List (String × String) :=
  [("'Adelie%'", "deeppink"),
   ("'Chinstrap%'", "black"),
   ("'Gentoo%'", "darkorange"),
   (" AND sex LIKE 'MALE'", "green"),
   (" AND sex LIKE 'FEMALE'", "yellow")]

end GraphUtils

/-! Section: Query builders (`data_viz.py`) -/

/-- The f-string base of `Histogram.build_query` (lines 101-103),
with the exact layout of the triple-quoted source literal. -/
def histQueryBase (varName : String) : String :=
  "SELECT " ++ varName ++
  "\n                    FROM palmerpenguins\n                    WHERE 1=1"

namespace Histogram

/-- Method `Histogram.build_query` (data_viz.py lines 91-112): the base
SELECT, then the species and/or sex clause appended according to the
Python truthiness (non-emptiness) of the two filter strings. -/
def build_query (species sex varName : String) : String :=
  let query := histQueryBase varName
  if species != "" && sex != "" then query ++ (species ++ sex)
  else if species != "" then query ++ species
  else if sex != "" then query ++ sex
  else query

end Histogram

namespace LinearRegression

/-- Method `LinearRegression.build_query` (data_viz.py lines 188-191), with
the exact layout of the triple-quoted source literal. -/
def build_query (species explanatory response : String) : String :=
  "SELECT " ++ explanatory ++ ", " ++ response ++
  "\n                         FROM palmerpenguins \n                         WHERE species \n                         LIKE " ++
  species

end LinearRegression

namespace MultipleRegression

/-- Method `MultipleRegression.build_query` (data_viz.py lines 273-278), with
the exact layout of the triple-quoted source literal. -/
def build_query (species firstExplanatory secondExplanatory response : String) :
    String :=
  "SELECT " ++ firstExplanatory ++ ", \n                                " ++
  secondExplanatory ++ ",\n                                " ++ response ++
  "\n                         FROM palmerpenguins \n                         WHERE species \n                         LIKE " ++
  species

end MultipleRegression

example :
    Histogram.build_query " AND species LIKE 'Adelie%'" "" "body_mass_g" =
    "SELECT body_mass_g\n                    FROM palmerpenguins\n                    WHERE 1=1 AND species LIKE 'Adelie%'" := by
  decide

/-! Section: Well-formedness of the built SQL texts -/

/-- A SQL text is a well-formed single SELECT statement over the
`palmerpenguins` table when it starts with `SELECT`, mentions
`FROM palmerpenguins`, contains no statement separator `;`, no double
quote, no comment introducer `--`, and its single quotes are balanced
(an even number of them). -/
def wellFormedSingleSelect (q : String) : Bool :=
  let cs := q.toList
  charsStartsWith "SELECT".toList cs &&
  hasSubstr "FROM palmerpenguins".toList cs &&
  cs.count ';' == 0 &&
  cs.count '"' == 0 &&
  (cs.count '\'') % 2 == 0 &&
  !(hasSubstr "--".toList cs)

/-- Every query string `Histogram.build_query` can build from the
radio-button option sets of `histograms.py`. -/
def allHistQueries : List String :=
  histSpeciesOptions.flatMap (fun sp =>
    histSexOptions.flatMap (fun sx =>
      variableOptions.map (fun v => Histogram.build_query sp sx v)))

/-- Every query string `LinearRegression.build_query` can build from
the radio-button option sets of `linear_regression.py`. -/
def allLinRegQueries : List String :=
  regSpeciesOptions.flatMap (fun sp =>
    variableOptions.flatMap (fun e =>
      variableOptions.map (fun r => LinearRegression.build_query sp e r)))

/-- Every query string `MultipleRegression.build_query` can build from
the radio-button option sets of `multiple_regression.py`. -/
def allMultRegQueries : List String :=
  regSpeciesOptions.flatMap (fun sp =>
    variableOptions.flatMap (fun e1 =>
      variableOptions.flatMap (fun e2 =>
        variableOptions.map (fun r =>
          MultipleRegression.build_query sp e1 e2 r))))

/-- The finite set of SQL texts reachable from the UI option sets. -/
def allBuiltQueries : List String :=
  allHistQueries ++ allLinRegQueries ++ allMultRegQueries


/-! Section: `_create_dataframe` (data_viz.py lines 47-72): cleaning and errors -/

/-- A cell of a raw SQL query result: SQL NULL (pandas NaN), a text
value, or a numeric value. -/
inductive Cell where
  | null : Cell
  | str : String → Cell
  | num : ℚ → Cell
deriving DecidableEq, Repr

/-- Matches the regex `^\s*$`: the string is empty or all whitespace. -/
def isBlankStr (s : String) : Bool := s.toList.all Char.isWhitespace

/-- One cell of `df.replace(r"^\s*$", np.nan, regex=True)`: an empty or
whitespace-only text cell becomes NaN, every other cell is unchanged. -/
def replaceBlank (c : Cell) : Cell :=
  match c with
  | .str s => if isBlankStr s then .null else .str s
  | c => c

/-- A row after the regex replacement of `_create_dataframe`. -/
def rowReplaceBlank (r : List Cell) : List Cell := r.map replaceBlank

/-- Whether a row contains a missing value (used by `df.dropna()`). -/
def rowHasNull (r : List Cell) : Bool := r.any (fun c => c == Cell.null)

/-- Pandas `df.dropna()`: drop every row containing a missing value. -/
def dropna (rows : List (List Cell)) : List (List Cell) :=
  rows.filter (fun r => !(rowHasNull r))

/-- The cleaning pipeline of `_create_dataframe` (lines 65-66):
`df.replace(r"^\s*$", np.nan, regex=True)` followed by `df.dropna()`. -/
def cleanDataframe (rows : List (List Cell)) : List (List Cell) :=
  dropna (rows.map rowReplaceBlank)

/-- A cell the cleaning pipeline must eliminate: a missing value, or an
empty/whitespace-only text value. -/
def isBadCell (c : Cell) : Bool :=
  match c with
  | .null => true
  | .str s => isBlankStr s
  | .num _ => false

/-- The two exception classes caught by `_create_dataframe`
(`OperationalError` and any other `SQLAlchemyError`), each carrying its
message. -/
inductive SQLError where
  | operationalError : String → SQLError
  | otherSQLAlchemyError : String → SQLError
deriving DecidableEq, Repr

/-- The `logging.error` message written for each caught exception
(data_viz.py lines 70 and 72). -/
def sqlErrorLog : SQLError → String
  | .operationalError e => "Can't connect to database: " ++ e
  | .otherSQLAlchemyError e => "Unexpected SQLAlchemy error: " ++ e

/-- Function `_create_dataframe` (data_viz.py lines 47-72).  The engine/read
step is passed in as its outcome (`Except`): on success the cleaned
dataframe is returned; on a caught exception the function logs the
error and falls off the end, returning Python's implicit `None`.  The
second component collects the log lines written. -/
def create_dataframe (queryResult : Except SQLError (List (List Cell))) :
    Option (List (List Cell)) × List String :=
  match queryResult with
  | .ok rows => (some (cleanDataframe rows), [])
  | .error e => (none, [sqlErrorLog e])

/-! Section: Flask routing (`flask/app/app.py`) and Dash callback wiring -/

/-- The `url_base_pathname` of `Dash(...)` in histograms.py line 13. -/
def histogramsUrlBase : String := "/histograms/"

/-- The `url_base_pathname` of `Dash(...)` in linear_regression.py line 12. -/
def linearRegressionUrlBase : String := "/linear_regression/"

/-- The `url_base_pathname` of `Dash(...)` in multiple_regression.py line 14. -/
def multipleRegressionUrlBase : String := "/multiple_regression/"

/-- The observable routing surface of the Flask application. -/
structure FlaskApp where
  dashMounts : List String
  routes : List String
deriving DecidableEq, Repr

/-- File `flask/app/app.py` lines 11-26: one Flask app, the three
`init_dash_app` calls mounting the Dash apps at their URL bases, and
the two `@flask_app.route` registrations. -/
def flask_app : FlaskApp :=
  { dashMounts :=
      [histogramsUrlBase, linearRegressionUrlBase, multipleRegressionUrlBase],
    routes := ["/", "/glossary/"] }

/-- The radio components the three Dash layouts build. -/
inductive Component where
  | speciesRadio
  | sexRadio
  | variableRadio
  | explanatoryRadio
  | responseRadio
  | firstExplanatoryRadio
  | secondExplanatoryRadio
deriving DecidableEq, Repr

/-- The `Input(...)` components wired into the histogram callback
(histograms.py lines 67-72). -/
def histogramCallbackInputs : List Component :=
  [.speciesRadio, .sexRadio, .variableRadio]

/-- The `Input(...)` components wired into the linear-regression
callback (linear_regression.py lines 68-73). -/
def linearRegressionCallbackInputs : List Component :=
  [.speciesRadio, .explanatoryRadio, .responseRadio]

/-- The `Input(...)` components wired into the multiple-regression
callback (multiple_regression.py lines 85-91). -/
def multipleRegressionCallbackInputs : List Component :=
  [.speciesRadio, .firstExplanatoryRadio, .secondExplanatoryRadio,
   .responseRadio]

/-! Section: Rows of the `palmerpenguins` table and query semantics

The bundled SQLite file is not part of the source tree, so the table
content is an arbitrary list of rows; a row carries its `species` and
`sex` text columns and a valuation of the numeric measurement columns.
Measurement values are modelled in `ℚ`. -/

structure Row where
  species : String
  sex : String
  val : String → ℚ

/-- Modelled from the spec: semantics, on one row, of the `WHERE`
clause of the histogram query (`WHERE 1=1` plus the optional
`AND species LIKE '…'` and `AND sex LIKE '…'` clauses appended by
`Histogram.build_query`; the bundled SQLite engine that executes it is
not part of the source tree).  For clause strings drawn from the UI
sets, the embedded `LIKE` pattern of the species clause is the SQL
string literal starting at index 18 (after `" AND species LIKE "`) and
that of the sex clause starts at index 14 (after `" AND sex LIKE "`);
an empty clause string imposes no condition. -/
def histRowCond (speciesClause sexClause : String) (row : Row) : Bool :=
  (speciesClause == "" ||
    likeMatch (sqlStrLit (pyDrop 18 speciesClause)) row.species) &&
  (sexClause == "" || likeMatch (sqlStrLit (pyDrop 14 sexClause)) row.sex)

/-- Modelled from the spec: result of the regression query
`SELECT e, r FROM palmerpenguins WHERE species LIKE '…'` built by
`LinearRegression.build_query` — the two selected columns of the rows
whose species matches the `LIKE` pattern (the content of the SQL
string literal passed as the species option). -/
def linRegDataframe (db : List Row) (species explanatory response : String) :
    List (ℚ × ℚ) :=
  (db.filter (fun row => likeMatch (sqlStrLit species) row.species)).map
    (fun row => (row.val explanatory, row.val response))

/-- Modelled from the spec: result of the three-column regression query
built by `MultipleRegression.build_query`, analogously. -/
def multRegDataframe (db : List Row)
    (species firstExplanatory secondExplanatory response : String) :
    List (ℚ × ℚ × ℚ) :=
  (db.filter (fun row => likeMatch (sqlStrLit species) row.species)).map
    (fun row => (row.val firstExplanatory,
                 row.val secondExplanatory, row.val response))

/-! Section: Ordinary least squares (model of the statsmodels calls) -/

/-- The dot product of two columns. -/
def dotL (l1 l2 : List ℚ) : ℚ := (List.zipWith (· * ·) l1 l2).sum

/-- The sum of squares of a column. -/
def sumSq (l : List ℚ) : ℚ := (l.map (fun x => x * x)).sum

/-- The denominator of the simple-regression slope:
`n·Σx² − (Σx)²`. -/
def olsDenom (xs : List ℚ) : ℚ :=
  (xs.length : ℚ) * sumSq xs - xs.sum * xs.sum

/-- Modelled from the spec: the slope of the ordinary-least-squares
trendline fitted by `px.scatter(..., trendline='ols')` (the statistics
library is not part of the source tree), in its standard closed form —
the unique solution of the normal equations when `olsDenom xs ≠ 0`. -/
def olsSlope (xs ys : List ℚ) : ℚ :=
  ((xs.length : ℚ) * dotL xs ys - xs.sum * ys.sum) / olsDenom xs

/-- Modelled from the spec: the intercept of the same OLS trendline. -/
def olsIntercept (xs ys : List ℚ) : ℚ :=
  (ys.sum - olsSlope xs ys * xs.sum) / (xs.length : ℚ)

/-- Residual sum of squares of the line `y = a + b·x` on the data. -/
def ssRes (a b : ℚ) (xs ys : List ℚ) : ℚ :=
  (List.zipWith (fun x y => (y - (a + b * x)) ^ 2) xs ys).sum

/-- Total (centred) sum of squares of a column. -/
def ssTot (ys : List ℚ) : ℚ :=
  (ys.map (fun y => (y - ys.sum / (ys.length : ℚ)) ^ 2)).sum

/-- Modelled from the spec: the `rsquared` of the fitted OLS results,
`1 − SS_res/SS_tot` at the fitted coefficients. -/
def olsRSquared (xs ys : List ℚ) : ℚ :=
  1 - ssRes (olsIntercept xs ys) (olsSlope xs ys) xs ys / ssTot ys

/-- The determinant of a 3×3 matrix given row-major. -/
def det3 (a b c d e f g h i : ℚ) : ℚ :=
  a * (e * i - f * h) - b * (d * i - f * g) + c * (d * h - e * g)

/-- Number of rows of a three-column dataframe, as a rational. -/
def mN (df : List (ℚ × ℚ × ℚ)) : ℚ := (df.length : ℚ)

/-- Moment `Σ x₁` over a three-column dataframe. -/
def mX1 (df : List (ℚ × ℚ × ℚ)) : ℚ := (df.map (fun t => t.1)).sum

/-- Moment `Σ x₂`. -/
def mX2 (df : List (ℚ × ℚ × ℚ)) : ℚ := (df.map (fun t => t.2.1)).sum

/-- Moment `Σ y`. -/
def mY (df : List (ℚ × ℚ × ℚ)) : ℚ := (df.map (fun t => t.2.2)).sum

/-- Moment `Σ x₁²`. -/
def mX1X1 (df : List (ℚ × ℚ × ℚ)) : ℚ := (df.map (fun t => t.1 * t.1)).sum

/-- Moment `Σ x₁·x₂`. -/
def mX1X2 (df : List (ℚ × ℚ × ℚ)) : ℚ := (df.map (fun t => t.1 * t.2.1)).sum

/-- Moment `Σ x₂²`. -/
def mX2X2 (df : List (ℚ × ℚ × ℚ)) : ℚ :=
  (df.map (fun t => t.2.1 * t.2.1)).sum

/-- Moment `Σ x₁·y`. -/
def mX1Y (df : List (ℚ × ℚ × ℚ)) : ℚ := (df.map (fun t => t.1 * t.2.2)).sum

/-- Moment `Σ x₂·y`. -/
def mX2Y (df : List (ℚ × ℚ × ℚ)) : ℚ :=
  (df.map (fun t => t.2.1 * t.2.2)).sum

/-- Determinant of the Gram matrix `XᵀX` of the design matrix
`[1, x₁, x₂]`. -/
def gramDet (df : List (ℚ × ℚ × ℚ)) : ℚ :=
  det3 (mN df) (mX1 df) (mX2 df)
       (mX1 df) (mX1X1 df) (mX1X2 df)
       (mX2 df) (mX1X2 df) (mX2X2 df)

/-- The coefficients of the fitted multiple-regression model, in the
order the code reads them from `model.params`: `params[0]` (constant),
`params[1]` (first explanatory), `params[2]` (second explanatory). -/
structure OLS3Params where
  const : ℚ
  xSlope : ℚ
  ySlope : ℚ
deriving DecidableEq, Repr

/-- Modelled from the spec: `sm.OLS(y, sm.add_constant(X)).fit()` of
`MultipleRegression._fit_model` (data_viz.py lines 335-341; the
statistics library is not part of the source tree) — the least-squares
coefficients of `y` on `(1, x₁, x₂)`, obtained from the normal
equations `XᵀXβ = Xᵀy` by Cramer's rule.  `sm.add_constant` prepends
the constant column, so `params[0]` is the intercept and `params[1]`,
`params[2]` the two slopes. -/
def fitParams (df : List (ℚ × ℚ × ℚ)) : OLS3Params :=
  let D := gramDet df
  { const := det3 (mY df) (mX1 df) (mX2 df)
                  (mX1Y df) (mX1X1 df) (mX1X2 df)
                  (mX2Y df) (mX1X2 df) (mX2X2 df) / D,
    xSlope := det3 (mN df) (mY df) (mX2 df)
                   (mX1 df) (mX1Y df) (mX1X2 df)
                   (mX2 df) (mX2Y df) (mX2X2 df) / D,
    ySlope := det3 (mN df) (mX1 df) (mY df)
                   (mX1 df) (mX1X1 df) (mX1Y df)
                   (mX2 df) (mX1X2 df) (mX2Y df) / D }

/-! Section: numpy grid primitives used by `_draw_plane` -/

/-- Numpy `np.linspace(lo, hi, n)`: `n` evenly spaced points from `lo` to
`hi` inclusive (`_draw_plane` uses the default `n = 50`). -/
def linspace (lo hi : ℚ) (n : ℕ) : List ℚ :=
  (List.range n).map (fun (i : ℕ) => lo + (hi - lo) * (i : ℚ) / ((n : ℚ) - 1))

/-- Pandas `Series.min()` of a (nonempty) column. -/
def minL : List ℚ → ℚ
  | [] => 0
  | h :: t => t.foldl min h

/-- Pandas `Series.max()` of a (nonempty) column. -/
def maxL : List ℚ → ℚ
  | [] => 0
  | h :: t => t.foldl max h

/-- Numpy `np.meshgrid(xs, ys)`: the pair `(xx1, xx2)` of matrices with
`xx1[i][j] = xs[j]` and `xx2[i][j] = ys[i]`. -/
def meshgrid (xs ys : List ℚ) : List (List ℚ) × List (List ℚ) :=
  (ys.map (fun _ => xs), ys.map (fun yv => xs.map (fun _ => yv)))

/-- Scalar multiple of a matrix, elementwise. -/
def mScale (c : ℚ) (m : List (List ℚ)) : List (List ℚ) :=
  m.map (fun row => row.map (fun x => c * x))

/-- Scalar plus matrix, elementwise (numpy broadcasting). -/
def mAddConst (c : ℚ) (m : List (List ℚ)) : List (List ℚ) :=
  m.map (fun row => row.map (fun x => c + x))

/-- Elementwise sum of two matrices. -/
def mAdd (m1 m2 : List (List ℚ)) : List (List ℚ) :=
  List.zipWith (List.zipWith (· + ·)) m1 m2

/-- Matrix `z = z_intercept + (x_slope * xx1) + (y_slope * xx2)` of
`_draw_plane` (data_viz.py line 378). -/
def planeZ (p : OLS3Params) (xs ys : List ℚ) : List (List ℚ) :=
  let g := meshgrid xs ys
  mAddConst p.const (mAdd (mScale p.xSlope g.1) (mScale p.ySlope g.2))

/-! Section: The three figures, as the callbacks compute them -/

namespace Histogram

/-- The `sex_labels` dict of `Histogram._create_graph`
(data_viz.py lines 130-134). -/
def sex_labels : List (String × String) :=
  [("", ""),
   (" AND sex LIKE 'MALE'", " Male"),
   (" AND sex LIKE 'FEMALE'", " Female")]

/-- The `species_labels` dict of `Histogram._create_graph`
(data_viz.py lines 135-140). -/
def species_labels : List (String × String) :=
  [("", "Adelie, Chinstrap, and Gentoo"),
   (" AND species LIKE 'Adelie%'", "Adelie"),
   (" AND species LIKE 'Chinstrap%'", "Chinstrap"),
   (" AND species LIKE 'Gentoo%'", "Gentoo")]

/-- The observable content of the Plotly histogram figure. -/
structure Figure where
  xData : List ℚ
  nbins : ℕ
  title : String
  xaxisTitle : String
  yaxisTitle : String
  markerColor : String
deriving DecidableEq

/-- Method `Histogram._create_graph` (data_viz.py lines 116-159) composed
with the dataframe produced by its query: the selected column of the
rows passing the built filters, the `int(sqrt(#rows))` bin count
(float square root modelled by the integer square root), the title
assembled from the label dicts, and the marker colour chosen from
`GraphUtils.colours` by `species[18:]`, the sex clause, or the
default. -/
def create_graph (db : List Row) (species sex varName : String) : Figure :=
  let df := (db.filter (histRowCond species sex)).map (fun r => r.val varName)
  let variableLabel := lookupD GraphUtils.labels varName ""
  { xData := df,
    nbins := Nat.sqrt df.length,
    title := "What is the Distribution of " ++ variableLabel ++ " amongst" ++
             lookupD sex_labels sex "" ++ " " ++
             lookupD species_labels species "" ++ " Penguins?",
    xaxisTitle := variableLabel,
    yaxisTitle := "Probability",
    markerColor :=
      if species != "" then lookupD GraphUtils.colours (pyDrop 18 species) ""
      else if sex != "" then lookupD GraphUtils.colours sex ""
      else "cornflowerblue" }

/-- The figure returned to Dash, with the background colours the
callback adds. -/
structure StyledFigure where
  fig : Figure
  plotBgcolor : String
  paperBgcolor : String
deriving DecidableEq

/-- The `update_graph` callback of histograms.py (lines 67-92):
`Histogram(species, sex, variable).build_query()` then the two
`update_layout` background colours. -/
def update_graph (db : List Row) (species sex varName : String) :
    StyledFigure :=
  { fig := create_graph db species sex varName,
    plotBgcolor := "rgba(255, 255, 255, 0.2)",
    paperBgcolor := "rgba(0, 0, 0, 0)" }

end Histogram

namespace LinearRegression

/-- The trendline hover box of `LinearRegression._create_graph`
(data_viz.py lines 221-236): the numbers it interpolates into
`fig.data[1]["hovertemplate"]`. -/
structure TrendHover where
  slope : ℚ
  intercept : ℚ
  rSquared : ℚ
deriving DecidableEq

/-- The observable content of the linear-regression scatter figure. -/
structure Figure where
  points : List (ℚ × ℚ)
  title : String
  xaxisTitle : String
  yaxisTitle : String
  markerColor : String
  trendHover : TrendHover
deriving DecidableEq

/-- Method `LinearRegression._create_graph` (data_viz.py lines 195-238)
composed with the dataframe produced by its query: the scatter of the
two selected columns of the `LIKE`-filtered rows, the OLS trendline
whose slope (`params[1]`), intercept (`params[0]`) and `rsquared` the
code copies into the trendline hover template, the title using
`species[1:-2]`, and the marker colour `GraphUtils.colours[species]`. -/
def create_graph (db : List Row) (species explanatory response : String) :
    Figure :=
  let df := linRegDataframe db species explanatory response
  let xs := df.map Prod.fst
  let ys := df.map Prod.snd
  let explanatoryLabel := lookupD GraphUtils.labels explanatory ""
  let responseLabel := lookupD GraphUtils.labels response ""
  { points := df,
    title := "What is the Correlation between " ++
             pySliceOneNegTwo species ++ " " ++ explanatoryLabel ++
             " and " ++ responseLabel ++ "?",
    xaxisTitle := explanatoryLabel,
    yaxisTitle := responseLabel,
    markerColor := lookupD GraphUtils.colours species "",
    trendHover := { slope := olsSlope xs ys,
                    intercept := olsIntercept xs ys,
                    rSquared := olsRSquared xs ys } }

/-- The figure returned to Dash, with the background colours the
callback adds. -/
structure StyledFigure where
  fig : Figure
  plotBgcolor : String
  paperBgcolor : String
deriving DecidableEq

/-- The `update_graph` callback of linear_regression.py (lines 67-92). -/
def update_graph (db : List Row) (species explanatory response : String) :
    StyledFigure :=
  { fig := create_graph db species explanatory response,
    plotBgcolor := "rgba(255, 255, 255, 0.2)",
    paperBgcolor := "rgba(0, 0, 0, 0)" }

end LinearRegression

namespace MultipleRegression

/-- The surface trace `_draw_plane` adds (data_viz.py lines 381-397). -/
structure SurfaceTrace where
  x : List (List ℚ)
  y : List (List ℚ)
  z : List (List ℚ)
  colorscale : String
deriving DecidableEq

/-- The observable content of the 3D scatter figure with its fitted
plane. -/
structure Figure where
  points : List (ℚ × ℚ × ℚ)
  title : String
  markerColor : String
  markerLineColor : String
  params : OLS3Params
  surface : SurfaceTrace
deriving DecidableEq

/-- The `xx1` axis vector of `_draw_plane`: 50 points from the minimum
to the maximum of the first explanatory column. -/
def gridXs (df : List (ℚ × ℚ × ℚ)) : List ℚ :=
  linspace (minL (df.map (fun t => t.1))) (maxL (df.map (fun t => t.1))) 50

/-- The `xx2` axis vector of `_draw_plane`: 50 points from the minimum
to the maximum of the second explanatory column. -/
def gridYs (df : List (ℚ × ℚ × ℚ)) : List ℚ :=
  linspace (minL (df.map (fun t => t.2.1))) (maxL (df.map (fun t => t.2.1)))
    50

/-- Methods `MultipleRegression._create_graph` / `_fit_model` / `_draw_plane`
(data_viz.py lines 282-399) composed with the dataframe produced by
the query: the 3D scatter of the three selected columns of the
`LIKE`-filtered rows, the OLS coefficients read from `model.params` in
the order (const, first, second), and the surface trace over the 50×50
meshgrid with `z = intercept + x_slope·xx1 + y_slope·xx2`. -/
def update_graphs (db : List Row)
    (species firstExplanatory secondExplanatory response : String) :
    Figure :=
  let df := multRegDataframe db species firstExplanatory secondExplanatory
    response
  let p := fitParams df
  let xs := gridXs df
  let ys := gridYs df
  { points := df,
    title := "Can " ++ pySliceOneNegTwo species ++ " " ++
             lookupD GraphUtils.labels firstExplanatory "" ++ " and " ++
             lookupD GraphUtils.labels secondExplanatory "" ++
             " Help Predict " ++
             lookupD GraphUtils.labels response "" ++ "?",
    markerColor := lookupD GraphUtils.colours species "",
    markerLineColor := if species == "'Chinstrap%'" then "white" else "black",
    params := p,
    surface := { x := (meshgrid xs ys).1,
                 y := (meshgrid xs ys).2,
                 z := planeZ p xs ys,
                 colorscale := "spectral" } }

end MultipleRegression

/-! Section: Callback sessions (for statelessness) -/

/-- A sequence of histogram-callback invocations against a fixed
database: each call is handled by `Histogram.update_graph` alone. -/
def runHistSession (db : List Row) (seq : List (String × String × String)) :
    List Histogram.StyledFigure :=
  seq.map (fun t => Histogram.update_graph db t.1 t.2.1 t.2.2)

/-- A sequence of linear-regression-callback invocations. -/
def runLinRegSession (db : List Row) (seq : List (String × String × String)) :
    List LinearRegression.StyledFigure :=
  seq.map (fun t => LinearRegression.update_graph db t.1 t.2.1 t.2.2)

/-- A sequence of multiple-regression-callback invocations. -/
def runMultRegSession (db : List Row)
    (seq : List (String × String × String × String)) :
    List MultipleRegression.Figure :=
  seq.map (fun t => MultipleRegression.update_graphs db t.1 t.2.1 t.2.2.1
    t.2.2.2)

/-- The explanatory column of the linear-regression dataframe. -/
def linXs (db : List Row) (species e r : String) : List ℚ :=
  (linRegDataframe db species e r).map Prod.fst

/-- The response column of the linear-regression dataframe. -/
def linYs (db : List Row) (species e r : String) : List ℚ :=
  (linRegDataframe db species e r).map Prod.snd

/-- A small concrete table used to instantiate the universally
quantified theorems below. -/
def sampleDb : List Row :=
  [⟨"Adelie", "MALE", fun c =>
      if c = "culmen_length_mm" then 0 else
      if c = "culmen_depth_mm" then 0 else 0⟩,
   ⟨"Adelie", "FEMALE", fun c =>
      if c = "culmen_length_mm" then 1 else
      if c = "culmen_depth_mm" then 1 else 1⟩,
   ⟨"Adelie", "MALE", fun c =>
      if c = "culmen_length_mm" then 2 else
      if c = "culmen_depth_mm" then 4 else 2⟩,
   ⟨"Adelie", "FEMALE", fun c =>
      if c = "culmen_length_mm" then 3 else
      if c = "culmen_depth_mm" then 9 else 3⟩]

/-! Section: Helper lemmas -/

theorem likeMatches_percent_only (s : List Char) : likeMatches ['%'] s = true := by
  induction s with
  | nil => simp [likeMatches, likeSuffixAny]
  | cons c s2 ih =>
    simp [likeMatches, likeSuffixAny] at ih ⊢
    exact ih

theorem likeMatches_name_percent (name : List Char)
    (hname : ∀ c ∈ name, c ≠ '%' ∧ c ≠ '_') (s : List Char) :
    likeMatches (name ++ ['%']) s = charsStartsWith name s := by
  induction name generalizing s with
  | nil => simp [charsStartsWith, likeMatches_percent_only]
  | cons c name ih =>
    have hc : c ≠ '%' := (hname c (by simp)).1
    have hu : c ≠ '_' := (hname c (by simp)).2
    cases s with
    | nil => simp [likeMatches, charsStartsWith, hc]
    | cons d s2 =>
      simp [likeMatches, charsStartsWith, hc, hu,
        ih (fun x hx => hname x (by simp [hx]))]

theorem ols_normal_equations (xs ys : List ℚ)
    (hn : (xs.length : ℚ) ≠ 0) (hD : olsDenom xs ≠ 0) :
    (xs.length : ℚ) * olsIntercept xs ys + xs.sum * olsSlope xs ys = ys.sum ∧
    xs.sum * olsIntercept xs ys + sumSq xs * olsSlope xs ys = dotL xs ys := by
  unfold olsIntercept olsSlope olsDenom at *
  constructor
  · field_simp
    ring
  · field_simp
    ring

theorem cramer3_normal (a b c d e f g h i p q r : ℚ)
    (hD : det3 a b c d e f g h i ≠ 0) :
    a * (det3 p b c q e f r h i / det3 a b c d e f g h i) +
      b * (det3 a p c d q f g r i / det3 a b c d e f g h i) +
      c * (det3 a b p d e q g h r / det3 a b c d e f g h i) = p ∧
    d * (det3 p b c q e f r h i / det3 a b c d e f g h i) +
      e * (det3 a p c d q f g r i / det3 a b c d e f g h i) +
      f * (det3 a b p d e q g h r / det3 a b c d e f g h i) = q ∧
    g * (det3 p b c q e f r h i / det3 a b c d e f g h i) +
      h * (det3 a p c d q f g r i / det3 a b c d e f g h i) +
      i * (det3 a b p d e q g h r / det3 a b c d e f g h i) = r := by
  unfold det3 at *
  refine ⟨?_, ?_, ?_⟩ <;> field_simp <;> ring

theorem linspace_length (lo hi : ℚ) (n : ℕ) : (linspace lo hi n).length = n := by
  unfold linspace
  rw [List.length_map, List.length_range]

theorem linspace_getD (lo hi : ℚ) (n j : ℕ) (hj : j < n) :
    (linspace lo hi n).getD j 0 = lo + (hi - lo) * j / ((n : ℚ) - 1) := by
  rw [List.getD_eq_getElem _ _ (by simpa [linspace_length] using hj)]
  unfold linspace
  simp only [List.getElem_map, List.getElem_range]

theorem likeMatch_reg_species (species : String)
    (hsp : species ∈ regSpeciesOptions) (s : String) :
    likeMatch (sqlStrLit species) s =
      charsStartsWith (pySliceOneNegTwo species).toList s.toList := by
  have hsp' : species = "'Adelie%'" ∨ species = "'Chinstrap%'" ∨
      species = "'Gentoo%'" := by simpa [regSpeciesOptions] using hsp
  rcases hsp' with rfl | rfl | rfl
  · rw [show sqlStrLit "'Adelie%'" = "Adelie%" from by decide,
      show pySliceOneNegTwo "'Adelie%'" = "Adelie" from by decide]
    unfold likeMatch
    rw [show ("Adelie%" : String).toList = ("Adelie" : String).toList ++ ['%']
      from by decide]
    exact likeMatches_name_percent _ (by decide) _
  · rw [show sqlStrLit "'Chinstrap%'" = "Chinstrap%" from by decide,
      show pySliceOneNegTwo "'Chinstrap%'" = "Chinstrap" from by decide]
    unfold likeMatch
    rw [show ("Chinstrap%" : String).toList =
        ("Chinstrap" : String).toList ++ ['%'] from by decide]
    exact likeMatches_name_percent _ (by decide) _
  · rw [show sqlStrLit "'Gentoo%'" = "Gentoo%" from by decide,
      show pySliceOneNegTwo "'Gentoo%'" = "Gentoo" from by decide]
    unfold likeMatch
    rw [show ("Gentoo%" : String).toList = ("Gentoo" : String).toList ++ ['%']
      from by decide]
    exact likeMatches_name_percent _ (by decide) _

theorem getD_of_lt {α : Type} (l : List α) (i : ℕ) (d : α)
    (hi : i < l.length) : l.getD i d = l.get ⟨i, hi⟩ := by
  rw [List.getD_eq_getElem _ _ hi]
  simp [List.get_eq_getElem]

theorem map_getD {α β : Type} (f : α → β) (l : List α) (i : ℕ) (d : β)
    (hi : i < l.length) : (l.map f).getD i d = f (l.get ⟨i, hi⟩) := by
  rw [List.getD_eq_getElem _ _ (by simpa using hi)]
  simp [List.getElem_map, List.get_eq_getElem]

theorem map_getD_congr {α β : Type} (f : α → β) (l : List α) (i j : ℕ)
    (dA : α) (dB : β) (hi : i < l.length) (hj : j < l.length)
    (h : l.getD i dA = l.getD j dA) :
    (l.map f).getD i dB = (l.map f).getD j dB := by
  rw [List.getD_eq_getElem _ _ (by simpa using hi),
    List.getD_eq_getElem _ _ (by simpa using hj)]
  rw [List.getD_eq_getElem _ _ hi, List.getD_eq_getElem _ _ hj] at h
  simp only [List.getElem_map]
  rw [h]

theorem planeZ_eq (p : OLS3Params) (xs ys : List ℚ) :
    planeZ p xs ys =
      ys.map (fun yv =>
        xs.map (fun xv => p.const + (p.xSlope * xv + p.ySlope * yv))) := by
  unfold planeZ meshgrid mScale mAdd mAddConst
  simp only [List.map_map, List.zipWith_map_left, List.zipWith_map_right,
    List.zipWith_same, Function.comp_def]

/-! Section: Claims -/

/-- Claim C2: `Histogram.build_query` builds exactly the base SELECT
over `palmerpenguins` with `WHERE 1=1`, followed by the species clause
and then the sex clause, each appended exactly when non-empty (an
empty clause contributes nothing); and for every UI variable name the
base, up to the layout whitespace of the source's triple-quoted
literal, reads `SELECT {variable} FROM palmerpenguins WHERE 1=1`. -/
theorem histogram_build_query_concatenation (species sex varName : String) :
    Histogram.build_query species sex varName =
      histQueryBase varName ++ species ++ sex ∧
    (varName ∈ variableOptions →
      normSpaces (histQueryBase varName) =
        "SELECT " ++ varName ++ " FROM palmerpenguins WHERE 1=1") := by
  constructor
  · unfold Histogram.build_query
    by_cases hsp : species = "" <;> by_cases hsx : sex = "" <;>
      simp [hsp, hsx, bne_iff_ne, String.append_assoc, String.append_empty]
  · intro hv
    have hv' : varName = "culmen_length_mm" ∨ varName = "culmen_depth_mm" ∨
        varName = "flipper_length_mm" ∨ varName = "body_mass_g" ∨
        varName = "delta_15_N_ppt" ∨ varName = "delta_13_C_ppt" := by
      simpa [variableOptions] using hv
    rcases hv' with rfl | rfl | rfl | rfl | rfl | rfl <;> decide

/-- Witness for C2 at a concrete species clause, sex clause and
variable. -/
theorem histogram_build_query_concatenation_witness :
    Histogram.build_query " AND species LIKE 'Adelie%'"
        " AND sex LIKE 'MALE'" "body_mass_g" =
      histQueryBase "body_mass_g" ++ " AND species LIKE 'Adelie%'" ++
        " AND sex LIKE 'MALE'" ∧
    normSpaces (histQueryBase "body_mass_g") =
      "SELECT body_mass_g FROM palmerpenguins WHERE 1=1" := by
  have h := histogram_build_query_concatenation " AND species LIKE 'Adelie%'"
    " AND sex LIKE 'MALE'" "body_mass_g"
  exact ⟨h.1, h.2 (by decide)⟩

/-- Claim C3, counterexample: the linear-regression callback takes no
sex-filter input — `sex_radio` is not among its wired `Input`
components — so not every chart callback takes a sex filter input. -/
theorem linear_regression_callback_lacks_sex_input :
    Component.sexRadio ∉ linearRegressionCallbackInputs := by decide

/-- Claim C3, amended: every chart callback takes a species filter
input and its chosen measurement-variable inputs, but only the
histogram callback takes a sex filter input; the linear-regression and
multiple-regression callbacks take none. -/
theorem callback_filter_inputs :
    (Component.speciesRadio ∈ histogramCallbackInputs ∧
     Component.speciesRadio ∈ linearRegressionCallbackInputs ∧
     Component.speciesRadio ∈ multipleRegressionCallbackInputs) ∧
    Component.sexRadio ∈ histogramCallbackInputs ∧
    Component.sexRadio ∉ linearRegressionCallbackInputs ∧
    Component.sexRadio ∉ multipleRegressionCallbackInputs ∧
    Component.variableRadio ∈ histogramCallbackInputs ∧
    (Component.explanatoryRadio ∈ linearRegressionCallbackInputs ∧
     Component.responseRadio ∈ linearRegressionCallbackInputs) ∧
    (Component.firstExplanatoryRadio ∈ multipleRegressionCallbackInputs ∧
     Component.secondExplanatoryRadio ∈ multipleRegressionCallbackInputs ∧
     Component.responseRadio ∈ multipleRegressionCallbackInputs) := by
  decide

/-- Claim C7: the Flask application mounts exactly three Dash chart
apps, at `/histograms/`, `/linear_regression/` and
`/multiple_regression/`, alongside the index and glossary routes. -/
theorem flask_app_routing :
    flask_app.dashMounts =
      ["/histograms/", "/linear_regression/", "/multiple_regression/"] ∧
    flask_app.dashMounts.length = 3 ∧
    flask_app.routes = ["/", "/glossary/"] := by decide

/-- Claim C9: on a caught database error (`OperationalError` or any
other `SQLAlchemyError`), `_create_dataframe` logs the error and
returns `None` instead of raising; on success it returns the cleaned
dataframe. -/
theorem create_dataframe_error_handling :
    (∀ e : SQLError,
      create_dataframe (Except.error e) = (none, [sqlErrorLog e])) ∧
    (∀ rows, (create_dataframe (Except.ok rows)).1 =
      some (cleanDataframe rows)) :=
  ⟨fun _ => rfl, fun _ => rfl⟩

/-- Witness for C9 at a concrete `OperationalError`. -/
theorem create_dataframe_error_handling_witness :
    create_dataframe
        (Except.error (SQLError.operationalError "unable to open file")) =
      (none, ["Can't connect to database: unable to open file"]) := by
  have h := create_dataframe_error_handling.1
    (SQLError.operationalError "unable to open file")
  simpa [sqlErrorLog] using h

/-- Claim C10: the styling slices and dict lookups are total — for
every non-empty histogram species clause, `species[18:]` is a key of
`GraphUtils.colours`; the label dicts of `Histogram._create_graph`
contain every UI sex and species option value (including the empty
string); and slicing `species[1:-2]` on each regression species option
yields exactly the bare species names used in the chart titles. -/
theorem styling_lookups_total :
    (∀ sp ∈ histSpeciesOptions, sp ≠ "" →
      pyDrop 18 sp ∈ keysOf GraphUtils.colours) ∧
    (∀ sx ∈ histSexOptions, sx ∈ keysOf Histogram.sex_labels) ∧
    (∀ sp ∈ histSpeciesOptions, sp ∈ keysOf Histogram.species_labels) ∧
    regSpeciesOptions.map pySliceOneNegTwo =
      ["Adelie", "Chinstrap", "Gentoo"] := by decide

/-- Witness for C10 at the Adelie species clause. -/
theorem styling_lookups_total_witness :
    pyDrop 18 " AND species LIKE 'Adelie%'" ∈ keysOf GraphUtils.colours :=
  styling_lookups_total.1 " AND species LIKE 'Adelie%'" (by decide)
    (by decide)

/-- Claim C8: the cleaning pipeline of `_create_dataframe` keeps
exactly the rows free of missing values and of empty or
whitespace-only string cells, in query-result order and with their
values unchanged; consequently every row of its output is free of such
cells. -/
theorem create_dataframe_cleaning (rows : List (List Cell)) :
    cleanDataframe rows = rows.filter (fun r => !(r.any isBadCell)) ∧
    ∀ r ∈ cleanDataframe rows, r.all (fun c => !(isBadCell c)) = true := by
  have hpt : ∀ c : Cell, (replaceBlank c == Cell.null) = isBadCell c := by
    intro c
    cases c with
    | null => rfl
    | str s => by_cases hb : isBlankStr s <;> simp [replaceBlank, isBadCell, hb]
    | num q => rfl
  have hrow : ∀ r : List Cell,
      rowHasNull (rowReplaceBlank r) = r.any isBadCell := by
    intro r
    unfold rowHasNull rowReplaceBlank
    rw [List.any_map]
    have : ((fun c => c == Cell.null) ∘ replaceBlank) = isBadCell :=
      funext hpt
    rw [this]
  have hmain : cleanDataframe rows =
      rows.filter (fun r => !(r.any isBadCell)) := by
    unfold cleanDataframe dropna
    rw [List.filter_map]
    have hcomp : ((fun r => !(rowHasNull r)) ∘ rowReplaceBlank) =
        (fun r : List Cell => !(r.any isBadCell)) := by
      funext r
      simp only [Function.comp_apply, hrow r]
    rw [hcomp]
    have hid : ∀ r ∈ rows.filter (fun r : List Cell => !(r.any isBadCell)),
        rowReplaceBlank r = r := by
      intro r hr
      have hq : r.any isBadCell = false := by
        simpa using List.of_mem_filter hr
      have hcells := List.any_eq_false.mp hq
      unfold rowReplaceBlank
      have hkeep : ∀ c ∈ r, replaceBlank c = c := by
        intro c hc
        have hbad := hcells c hc
        cases c with
        | null => simp [isBadCell] at hbad
        | str s =>
          simp only [isBadCell, Bool.not_eq_true] at hbad
          simp [replaceBlank, hbad]
        | num q => rfl
      calc r.map replaceBlank = r.map id :=
            List.map_congr_left (fun a ha => by simp [hkeep a ha])
        _ = r := List.map_id r
    calc (rows.filter (fun r : List Cell => !(r.any isBadCell))).map
            rowReplaceBlank
        = (rows.filter (fun r : List Cell => !(r.any isBadCell))).map id :=
          List.map_congr_left (fun a ha => by simp [hid a ha])
      _ = rows.filter (fun r : List Cell => !(r.any isBadCell)) :=
          List.map_id _
  refine ⟨hmain, ?_⟩
  intro r hr
  rw [hmain] at hr
  have hq : r.any isBadCell = false := by
    simpa using List.of_mem_filter hr
  have hcells := List.any_eq_false.mp hq
  simp only [List.all_eq_true]
  intro c hc
  simpa using hcells c hc

/-- Witness for C8 on a concrete query result: the whitespace-only
string row and the NULL row are dropped, the clean row survives
unchanged. -/
theorem create_dataframe_cleaning_witness :
    cleanDataframe
        [[Cell.str " ", Cell.num 1], [Cell.str "MALE", Cell.num 2],
         [Cell.null]] =
      [[Cell.str "MALE", Cell.num 2]] := by
  rw [(create_dataframe_cleaning _).1]
  decide

/-- Claim C6: the three chart callbacks are stateless — over any
sequence of invocations against a fixed database, two invocations with
the same radio-button values produce the same figure, regardless of
what was invoked before or between them. -/
theorem callbacks_stateless :
    (∀ (db : List Row) (seq : List (String × String × String)) (i j : ℕ),
      i < seq.length → j < seq.length →
      seq.getD i ("", "", "") = seq.getD j ("", "", "") →
      (runHistSession db seq).getD i (Histogram.update_graph [] "" "" "") =
        (runHistSession db seq).getD j
          (Histogram.update_graph [] "" "" "")) ∧
    (∀ (db : List Row) (seq : List (String × String × String)) (i j : ℕ),
      i < seq.length → j < seq.length →
      seq.getD i ("", "", "") = seq.getD j ("", "", "") →
      (runLinRegSession db seq).getD i
          (LinearRegression.update_graph [] "" "" "") =
        (runLinRegSession db seq).getD j
          (LinearRegression.update_graph [] "" "" "")) ∧
    (∀ (db : List Row) (seq : List (String × String × String × String))
        (i j : ℕ),
      i < seq.length → j < seq.length →
      seq.getD i ("", "", "", "") = seq.getD j ("", "", "", "") →
      (runMultRegSession db seq).getD i
          (MultipleRegression.update_graphs [] "" "" "" "") =
        (runMultRegSession db seq).getD j
          (MultipleRegression.update_graphs [] "" "" "" "")) := by
  refine ⟨?_, ?_, ?_⟩ <;>
    exact fun db seq i j hi hj h => map_getD_congr _ seq i j _ _ hi hj h

/-- Witness for C6: in a three-call histogram session whose first and
third inputs coincide, the first and third figures coincide. -/
theorem callbacks_stateless_witness :
    (runHistSession sampleDb
        [("", "", "flipper_length_mm"),
         (" AND species LIKE 'Adelie%'", "", "body_mass_g"),
         ("", "", "flipper_length_mm")]).getD 0
        (Histogram.update_graph [] "" "" "") =
      (runHistSession sampleDb
        [("", "", "flipper_length_mm"),
         (" AND species LIKE 'Adelie%'", "", "body_mass_g"),
         ("", "", "flipper_length_mm")]).getD 2
        (Histogram.update_graph [] "" "" "") :=
  callbacks_stateless.1 sampleDb _ 0 2 (by decide) (by decide) (by decide)

/-- Claim C5: for every table content, UI species option and pair of
columns, the linear-regression figure scatters exactly the two
selected columns of the rows whose species starts with the selected
bare species name (the effect of the `LIKE 'Name%'` filter); its
trendline coefficients are the ordinary-least-squares fit of the
response on the explanatory column — they satisfy the two normal
equations — and the trendline hover reports that fit's slope,
intercept and R² (the latter being `1 − SS_res/SS_tot` at those very
coefficients). -/
theorem linear_regression_figure (db : List Row) (species : String)
    (hsp : species ∈ regSpeciesOptions) (e r : String)
    (hn : (linXs db species e r).length ≠ 0)
    (hD : olsDenom (linXs db species e r) ≠ 0) :
    (LinearRegression.create_graph db species e r).points =
      (db.filter (fun row =>
        charsStartsWith (pySliceOneNegTwo species).toList
          row.species.toList)).map
        (fun row => (row.val e, row.val r)) ∧
    ((linXs db species e r).length : ℚ) *
        (LinearRegression.create_graph db species e r).trendHover.intercept +
      (linXs db species e r).sum *
        (LinearRegression.create_graph db species e r).trendHover.slope =
      (linYs db species e r).sum ∧
    (linXs db species e r).sum *
        (LinearRegression.create_graph db species e r).trendHover.intercept +
      sumSq (linXs db species e r) *
        (LinearRegression.create_graph db species e r).trendHover.slope =
      dotL (linXs db species e r) (linYs db species e r) ∧
    (LinearRegression.create_graph db species e r).trendHover.rSquared =
      1 - ssRes
            (LinearRegression.create_graph db species e r).trendHover.intercept
            (LinearRegression.create_graph db species e r).trendHover.slope
            (linXs db species e r) (linYs db species e r) /
          ssTot (linYs db species e r) := by
  have hnormal := ols_normal_equations (linXs db species e r)
    (linYs db species e r) (Nat.cast_ne_zero.mpr hn) hD
  refine ⟨?_, hnormal.1, hnormal.2, rfl⟩
  show linRegDataframe db species e r = _
  unfold linRegDataframe
  have hpred : (fun row : Row => likeMatch (sqlStrLit species) row.species) =
      (fun row : Row => charsStartsWith (pySliceOneNegTwo species).toList
        row.species.toList) :=
    funext fun row => likeMatch_reg_species species hsp row.species
  rw [hpred]

/-- Witness for C5 on the concrete sample table. -/
theorem linear_regression_figure_witness :
    (LinearRegression.create_graph sampleDb "'Adelie%'" "culmen_length_mm"
        "body_mass_g").points =
      (sampleDb.filter (fun row =>
        charsStartsWith (pySliceOneNegTwo "'Adelie%'").toList
          row.species.toList)).map
        (fun row => (row.val "culmen_length_mm", row.val "body_mass_g")) :=
  (linear_regression_figure sampleDb "'Adelie%'" (by decide)
    "culmen_length_mm" "body_mass_g" (by decide)
    (by
      rw [show linXs sampleDb "'Adelie%'" "culmen_length_mm" "body_mass_g" =
        [(0 : ℚ), 1, 2, 3] from rfl]
      norm_num [olsDenom, sumSq])).1

/-- Claim C4: for every table content and selection, the
multiple-regression figure's coefficients are read from the fitted
model's parameters in the order (intercept, first explanatory, second
explanatory) and constitute the ordinary-least-squares fit of the
response on the two explanatory columns plus an intercept (they
satisfy the three normal equations); the surface trace is a 50×50 grid
whose `z` value at every grid point equals
`intercept + x_slope·x + y_slope·y`, over axes of 50 evenly spaced
values running from the minimum to the maximum of each explanatory
column. -/
theorem multiple_regression_plane (db : List Row)
    (species e1 e2 r : String)
    (hD : gramDet (multRegDataframe db species e1 e2 r) ≠ 0) :
    mN (multRegDataframe db species e1 e2 r) *
        (MultipleRegression.update_graphs db species e1 e2 r).params.const +
      mX1 (multRegDataframe db species e1 e2 r) *
        (MultipleRegression.update_graphs db species e1 e2 r).params.xSlope +
      mX2 (multRegDataframe db species e1 e2 r) *
        (MultipleRegression.update_graphs db species e1 e2 r).params.ySlope =
      mY (multRegDataframe db species e1 e2 r) ∧
    mX1 (multRegDataframe db species e1 e2 r) *
        (MultipleRegression.update_graphs db species e1 e2 r).params.const +
      mX1X1 (multRegDataframe db species e1 e2 r) *
        (MultipleRegression.update_graphs db species e1 e2 r).params.xSlope +
      mX1X2 (multRegDataframe db species e1 e2 r) *
        (MultipleRegression.update_graphs db species e1 e2 r).params.ySlope =
      mX1Y (multRegDataframe db species e1 e2 r) ∧
    mX2 (multRegDataframe db species e1 e2 r) *
        (MultipleRegression.update_graphs db species e1 e2 r).params.const +
      mX1X2 (multRegDataframe db species e1 e2 r) *
        (MultipleRegression.update_graphs db species e1 e2 r).params.xSlope +
      mX2X2 (multRegDataframe db species e1 e2 r) *
        (MultipleRegression.update_graphs db species e1 e2 r).params.ySlope =
      mX2Y (multRegDataframe db species e1 e2 r) ∧
    (MultipleRegression.update_graphs db species e1 e2 r).params =
      fitParams (multRegDataframe db species e1 e2 r) ∧
    (MultipleRegression.update_graphs db species e1 e2 r).surface.z.length =
      50 ∧
    (∀ i, i < 50 →
      (((MultipleRegression.update_graphs db species e1 e2
          r).surface.z).getD i []).length = 50) ∧
    (∀ i j, i < 50 → j < 50 →
      ((((MultipleRegression.update_graphs db species e1 e2
            r).surface.z).getD i []).getD j 0) =
        (MultipleRegression.update_graphs db species e1 e2 r).params.const +
          (MultipleRegression.update_graphs db species e1 e2
            r).params.xSlope *
            ((MultipleRegression.gridXs (multRegDataframe db species e1 e2 r)).getD j 0) +
          (MultipleRegression.update_graphs db species e1 e2
            r).params.ySlope *
            ((MultipleRegression.gridYs (multRegDataframe db species e1 e2 r)).getD i 0)) ∧
    (MultipleRegression.gridXs (multRegDataframe db species e1 e2 r)).length = 50 ∧
    (MultipleRegression.gridXs (multRegDataframe db species e1 e2 r)).getD 0 0 =
      minL ((multRegDataframe db species e1 e2 r).map (fun t => t.1)) ∧
    (MultipleRegression.gridXs (multRegDataframe db species e1 e2 r)).getD 49 0 =
      maxL ((multRegDataframe db species e1 e2 r).map (fun t => t.1)) ∧
    (∀ j, j + 1 < 50 →
      (MultipleRegression.gridXs (multRegDataframe db species e1 e2 r)).getD (j + 1) 0 -
        (MultipleRegression.gridXs (multRegDataframe db species e1 e2 r)).getD j 0 =
      (maxL ((multRegDataframe db species e1 e2 r).map (fun t => t.1)) -
        minL ((multRegDataframe db species e1 e2 r).map (fun t => t.1))) /
        49) ∧
    (MultipleRegression.gridYs (multRegDataframe db species e1 e2 r)).length = 50 ∧
    (MultipleRegression.gridYs (multRegDataframe db species e1 e2 r)).getD 0 0 =
      minL ((multRegDataframe db species e1 e2 r).map (fun t => t.2.1)) ∧
    (MultipleRegression.gridYs (multRegDataframe db species e1 e2 r)).getD 49 0 =
      maxL ((multRegDataframe db species e1 e2 r).map (fun t => t.2.1)) ∧
    (∀ i, i + 1 < 50 →
      (MultipleRegression.gridYs (multRegDataframe db species e1 e2 r)).getD (i + 1) 0 -
        (MultipleRegression.gridYs (multRegDataframe db species e1 e2 r)).getD i 0 =
      (maxL ((multRegDataframe db species e1 e2 r).map (fun t => t.2.1)) -
        minL ((multRegDataframe db species e1 e2 r).map (fun t => t.2.1))) /
        49) := by
  have hcram := cramer3_normal
    (mN (multRegDataframe db species e1 e2 r))
    (mX1 (multRegDataframe db species e1 e2 r))
    (mX2 (multRegDataframe db species e1 e2 r))
    (mX1 (multRegDataframe db species e1 e2 r))
    (mX1X1 (multRegDataframe db species e1 e2 r))
    (mX1X2 (multRegDataframe db species e1 e2 r))
    (mX2 (multRegDataframe db species e1 e2 r))
    (mX1X2 (multRegDataframe db species e1 e2 r))
    (mX2X2 (multRegDataframe db species e1 e2 r))
    (mY (multRegDataframe db species e1 e2 r))
    (mX1Y (multRegDataframe db species e1 e2 r))
    (mX2Y (multRegDataframe db species e1 e2 r)) hD
  have hz : (MultipleRegression.update_graphs db species e1 e2 r).surface.z =
      planeZ (fitParams (multRegDataframe db species e1 e2 r))
        (MultipleRegression.gridXs (multRegDataframe db species e1 e2 r))
        (MultipleRegression.gridYs (multRegDataframe db species e1 e2 r)) := rfl
  have hxlen : (MultipleRegression.gridXs (multRegDataframe db species e1 e2 r)).length = 50 :=
    linspace_length _ _ _
  have hylen : (MultipleRegression.gridYs (multRegDataframe db species e1 e2 r)).length = 50 :=
    linspace_length _ _ _
  refine ⟨hcram.1, hcram.2.1, hcram.2.2, rfl, ?_, ?_, ?_, hxlen, ?_, ?_, ?_,
    hylen, ?_, ?_, ?_⟩
  · rw [hz, planeZ_eq, List.length_map, hylen]
  · intro i hi
    have hi' : i < (MultipleRegression.gridYs
        (multRegDataframe db species e1 e2 r)).length := by
      rw [hylen]; exact hi
    rw [hz, planeZ_eq, map_getD _ _ _ _ hi', List.length_map, hxlen]
  · intro i j hi hj
    have hi' : i < (MultipleRegression.gridYs
        (multRegDataframe db species e1 e2 r)).length := by
      rw [hylen]; exact hi
    have hj' : j < (MultipleRegression.gridXs
        (multRegDataframe db species e1 e2 r)).length := by
      rw [hxlen]; exact hj
    rw [show (MultipleRegression.update_graphs db species e1 e2 r).params =
      fitParams (multRegDataframe db species e1 e2 r) from rfl]
    rw [hz, planeZ_eq, map_getD _ _ _ _ hi', map_getD _ _ _ _ hj',
      getD_of_lt _ _ _ hj', getD_of_lt _ _ _ hi']
    ring
  · unfold MultipleRegression.gridXs
    rw [linspace_getD _ _ _ _ (by norm_num)]
    norm_num
  · unfold MultipleRegression.gridXs
    rw [linspace_getD _ _ _ _ (by norm_num)]
    push_cast
    field_simp
    ring
  · intro j hj
    unfold MultipleRegression.gridXs
    rw [linspace_getD _ _ _ _ (by omega), linspace_getD _ _ _ _ (by omega)]
    push_cast
    field_simp
    ring
  · unfold MultipleRegression.gridYs
    rw [linspace_getD _ _ _ _ (by norm_num)]
    norm_num
  · unfold MultipleRegression.gridYs
    rw [linspace_getD _ _ _ _ (by norm_num)]
    push_cast
    field_simp
    ring
  · intro i hi
    unfold MultipleRegression.gridYs
    rw [linspace_getD _ _ _ _ (by omega), linspace_getD _ _ _ _ (by omega)]
    push_cast
    field_simp
    ring

/-- Witness for C4: the first normal equation at the concrete sample
table. -/
theorem multiple_regression_plane_witness :
    mN (multRegDataframe sampleDb "'Adelie%'" "culmen_length_mm"
        "culmen_depth_mm" "flipper_length_mm") *
      (MultipleRegression.update_graphs sampleDb "'Adelie%'"
        "culmen_length_mm" "culmen_depth_mm"
        "flipper_length_mm").params.const +
    mX1 (multRegDataframe sampleDb "'Adelie%'" "culmen_length_mm"
        "culmen_depth_mm" "flipper_length_mm") *
      (MultipleRegression.update_graphs sampleDb "'Adelie%'"
        "culmen_length_mm" "culmen_depth_mm"
        "flipper_length_mm").params.xSlope +
    mX2 (multRegDataframe sampleDb "'Adelie%'" "culmen_length_mm"
        "culmen_depth_mm" "flipper_length_mm") *
      (MultipleRegression.update_graphs sampleDb "'Adelie%'"
        "culmen_length_mm" "culmen_depth_mm"
        "flipper_length_mm").params.ySlope =
    mY (multRegDataframe sampleDb "'Adelie%'" "culmen_length_mm"
        "culmen_depth_mm" "flipper_length_mm") :=
  (multiple_regression_plane sampleDb "'Adelie%'" "culmen_length_mm"
    "culmen_depth_mm" "flipper_length_mm"
    (by
      rw [show multRegDataframe sampleDb "'Adelie%'" "culmen_length_mm"
          "culmen_depth_mm" "flipper_length_mm" =
        [((0 : ℚ), (0 : ℚ), (0 : ℚ)), (1, 1, 1), (2, 4, 2), (3, 9, 3)]
        from rfl]
      norm_num [gramDet, det3, mN, mX1, mX2, mX1X1, mX1X2, mX2X2,
        List.map_cons, List.map_nil])).1

/-- Claim C1: for every input drawn from the fixed UI option sets, the
SQL text built by `Histogram.build_query`,
`LinearRegression.build_query` or `MultipleRegression.build_query`
lies in the finite set `allBuiltQueries` of 828 reachable texts, and
every member of that set is a well-formed single SELECT statement over
the `palmerpenguins` table — so no input from these sets can change
the statement's structure. -/
theorem built_queries_wellformed :
    (∀ sp ∈ histSpeciesOptions, ∀ sx ∈ histSexOptions,
      ∀ v ∈ variableOptions,
      Histogram.build_query sp sx v ∈ allBuiltQueries) ∧
    (∀ sp ∈ regSpeciesOptions, ∀ e ∈ variableOptions,
      ∀ r ∈ variableOptions,
      LinearRegression.build_query sp e r ∈ allBuiltQueries) ∧
    (∀ sp ∈ regSpeciesOptions, ∀ e1 ∈ variableOptions,
      ∀ e2 ∈ variableOptions, ∀ r ∈ variableOptions,
      MultipleRegression.build_query sp e1 e2 r ∈ allBuiltQueries) ∧
    (∀ q ∈ allBuiltQueries, wellFormedSingleSelect q = true) := by
  have hall : allBuiltQueries.all wellFormedSingleSelect = true := by decide
  refine ⟨?_, ?_, ?_, fun q hq => List.all_eq_true.mp hall q hq⟩
  · intro sp hsp sx hsx v hv
    refine List.mem_append.mpr (Or.inl (List.mem_append.mpr (Or.inl ?_)))
    simp only [allHistQueries, List.mem_flatMap, List.mem_map]
    exact ⟨sp, hsp, sx, hsx, v, hv, rfl⟩
  · intro sp hsp e he r hr
    refine List.mem_append.mpr (Or.inl (List.mem_append.mpr (Or.inr ?_)))
    simp only [allLinRegQueries, List.mem_flatMap, List.mem_map]
    exact ⟨sp, hsp, e, he, r, hr, rfl⟩
  · intro sp hsp e1 he1 e2 he2 r hr
    refine List.mem_append.mpr (Or.inr ?_)
    simp only [allMultRegQueries, List.mem_flatMap, List.mem_map]
    exact ⟨sp, hsp, e1, he1, e2, he2, r, hr, rfl⟩

/-- Witness for C1: the default histogram selection's query is in the
reachable set and is well-formed. -/
theorem built_queries_wellformed_witness :
    Histogram.build_query "" "" "flipper_length_mm" ∈ allBuiltQueries ∧
    wellFormedSingleSelect
      (Histogram.build_query "" "" "flipper_length_mm") = true := by
  have hmem := built_queries_wellformed.1 "" (by decide) "" (by decide)
    "flipper_length_mm" (by decide)
  exact ⟨hmem, built_queries_wellformed.2.2.2 _ hmem⟩
